import Mathlib

/-!
Shallow embedding of the council-of-sages billing and orchestration core.

Conventions used throughout:
* Python `Decimal` arithmetic is embedded as exact rational arithmetic (ℚ);
  all quantities appearing in the claims are far below the 28-significant-digit
  context precision, so the embedding is exact on the relevant inputs.
* MongoDB collections are embedded as Lean lists of records; the atomic
  `$inc` / conditional-update primitives become pure list transformations.
* `async` functions are embedded as pure state-passing functions: each takes
  the database value and returns the updated database value.
* Timestamps (`created_at`, `updated_at`, `processed_at`) are dropped: no
  claim mentions them.
-/

deriving instance DecidableEq for Except

namespace CouncilOfSages

/-! ## lib/billing/costs.py -/

/-- Embeds `ModelPricing` (costs.py): prices in USD per 1M tokens, kept as
exact rationals in place of `Decimal`. -/
structure ModelPricing where
  input_usd_per_1m : ℚ
  output_usd_per_1m : ℚ
  tokenizer : String
  deriving Repr, DecidableEq

/-- Embeds `MODEL_PRICING` (costs.py): the static per-model rate table. -/
def MODEL_PRICING : List (String × ModelPricing) :=
  [ ("gpt-4o-mini", ⟨3, 6, "openai"⟩),
    ("gpt-4o", ⟨5, 15, "openai"⟩),
    ("gpt-4", ⟨30, 60, "openai"⟩),
    ("gpt-3.5-turbo", ⟨1, 1, "openai"⟩),
    ("claude-3-5-haiku-20241022", ⟨3/2, 4, "anthropic"⟩),
    ("claude-sonnet-4-20250514", ⟨3, 6, "anthropic"⟩),
    ("claude-3-opus-20240229", ⟨15, 75, "anthropic"⟩) ]

/-- Embeds `get_model_pricing` (costs.py): a missing model raises
`ValueError` (the `UnsupportedModel` case of the taxonomy), embedded as
`Except.error`; the message drops the available-model listing. -/
def get_model_pricing (model_name : String) : Except String ModelPricing :=
  match List.lookup model_name MODEL_PRICING with
  | some pricing => .ok pricing
  | none => .error ("Model " ++ model_name ++ " not found in pricing map")

/-- Embeds `is_model_supported` (costs.py). -/
def is_model_supported (model_name : String) : Bool :=
  (List.lookup model_name MODEL_PRICING).isSome

/-! ## lib/billing/calculator.py -/

/-- Embeds `Decimal.quantize(Decimal("1"), rounding=ROUND_HALF_UP)`:
round to the nearest integer, ties away from zero. -/
def roundHalfUp (q : ℚ) : ℤ :=
  if 0 ≤ q then ⌊q + 1/2⌋ else -⌊-q + 1/2⌋

/-- Embeds `calculate_cost_tenths_of_cents` (calculator.py). The Python
default for `multiplier` is 3.0; every call site in the repository uses the
default, so callers in this file pass 3 explicitly. -/
def calculate_cost_tenths_of_cents (model_name : String)
    (input_tokens output_tokens : ℕ) (multiplier : ℚ) : Except String ℤ :=
  match get_model_pricing model_name with
  | .error e => .error e
  | .ok pricing =>
    let input_cost_usd : ℚ := (input_tokens : ℚ) / 1000000 * pricing.input_usd_per_1m
    let output_cost_usd : ℚ := (output_tokens : ℚ) / 1000000 * pricing.output_usd_per_1m
    let total_usd : ℚ := (input_cost_usd + output_cost_usd) * multiplier
    .ok (roundHalfUp (total_usd * 1000))

/-! ## models/user.py

The Mongo `User` document also carries an internal primary key `id`
(a `USR_` uuid) in one-to-one correspondence with the unique `user_id`;
the embedding keys every user-indexed operation by `user_id` directly. -/

/-- Embeds the `User` document: external id plus integer balance. -/
structure User where
  user_id : String
  balance_tenths_of_cents : ℤ
  deriving Repr, DecidableEq

/-- Embeds the `users` collection lookup `User.objects.async_get(user_id=...)`
(with the unique index on `user_id`). -/
def findUser (users : List User) (uid : String) : Option User :=
  users.find? (fun u => u.user_id == uid)

/-- Balance of a user as recorded in the collection, when present. -/
def balanceOf (users : List User) (uid : String) : Option ℤ :=
  (findUser users uid).map (fun u => u.balance_tenths_of_cents)

/-- Embeds `User.get_or_create` (user.py): return the existing user, or
insert a fresh one whose balance defaults to 1000 tenths of cents. -/
def get_or_create (users : List User) (uid : String) : User × List User :=
  match findUser users uid with
  | some u => (u, users)
  | none => (⟨uid, 1000⟩, users ++ [⟨uid, 1000⟩])

/-- Embeds `User.async_modify_balance` (user.py): the atomic
`dec__balance_tenths_of_cents` update keyed by the user primary key
(positive amount = deduction). -/
def async_modify_balance (users : List User) (uid : String) (amount : ℤ) :
    List User :=
  users.map (fun u =>
    if u.user_id == uid then ⟨u.user_id, u.balance_tenths_of_cents - amount⟩
    else u)

/-- Modelled from the spec: `User.async_add_balance` is invoked by
`webhook_handlers.handle_payment_succeeded` and by
`Payment.credit_if_not_processed`, but no definition of it exists under
`src/`. Following §4.1 (`apply_delta` with positive delta = credit, applied
through the native atomic increment), it atomically adds the amount to the
balance of the addressed user row. -/
def async_add_balance (users : List User) (uid : String) (amount : ℤ) :
    List User :=
  users.map (fun u =>
    if u.user_id == uid then ⟨u.user_id, u.balance_tenths_of_cents + amount⟩
    else u)

/-! ## models/usage_event.py -/

/-- Embeds the `UsageEvent` document (usage_event.py). The Mongo collection
has a unique compound index on `(user_internal_id, request_id)`; as with
`User`, the internal id is identified with the external `user_id` (they are
in one-to-one correspondence via `get_or_create`). -/
structure UsageEvent where
  user_internal_id : String
  request_id : String
  model_name : String
  input_tokens : ℕ
  output_tokens : ℕ
  cost_tenths_of_cents : ℤ
  status : String
  deriving Repr, DecidableEq

/-- State shared by the billing service: the `users` and `usage_events`
collections. -/
structure BillingDb where
  users : List User
  events : List UsageEvent
  deriving Repr, DecidableEq

/-- Embeds the unique-index check behind `NotUniqueError` for the
`(user_internal_id, request_id)` compound index. -/
def eventKeyExists (events : List UsageEvent) (uidInternal rid : String) : Bool :=
  events.any (fun e => e.user_internal_id == uidInternal && e.request_id == rid)

/-- Embeds `usage_event.async_save()` inside a
`try ... except NotUniqueError: pass-through` block, the shape used by both
`process_billing` and `log_failed_usage`: the insert succeeds unless the
`(user_internal_id, request_id)` pair already exists, in which case nothing
is written and no error escapes. -/
def saveUsageEventIdempotent (events : List UsageEvent) (e : UsageEvent) :
    List UsageEvent :=
  if eventKeyExists events e.user_internal_id e.request_id then events
  else events ++ [e]

/-! ## lib/billing/token_count.py -/

/-- Embeds `_count_tokens_heuristic` (token_count.py) on string content:
roughly one token per four characters. -/
def count_tokens_heuristic (content : String) : ℕ :=
  content.length / 4

/-- Embeds `count_input_tokens` (token_count.py); the model name is ignored
by the heuristic. -/
def count_input_tokens (_model_name : String) (prompt : String) : ℕ :=
  count_tokens_heuristic prompt

/-- Embeds `count_output_tokens` (token_count.py). -/
def count_output_tokens (_model_name : String) (text : String) : ℕ :=
  count_tokens_heuristic text

/-! ## lib/billing/service.py -/

/-- Embeds `process_billing` (service.py). Control flow of the source:
get-or-create the user, take token counts from the response usage metadata
when present (falling back to the heuristic counters), compute the cost
(which raises for an unsupported model, embedded as `Except.error`),
atomically debit the balance, then insert the success `UsageEvent` inside the
`NotUniqueError`-absorbing block. Note the debit happens before the
idempotency-guarded insert. Returns the updated state and the cost. -/
def process_billing (db : BillingDb) (user_id model_name : String)
    (input_content output_content : String)
    (usage_metadata : Option (ℕ × ℕ)) (request_id : String) :
    Except String (BillingDb × ℤ) :=
  let users1 := (get_or_create db.users user_id).2
  let tokens : ℕ × ℕ :=
    match usage_metadata with
    | some t => t
    | none => (count_input_tokens model_name input_content,
               count_output_tokens model_name output_content)
  match calculate_cost_tenths_of_cents model_name tokens.1 tokens.2 3 with
  | .error e => .error e
  | .ok cost =>
    let users2 := async_modify_balance users1 user_id cost
    let events2 := saveUsageEventIdempotent db.events
      ⟨user_id, request_id, model_name, tokens.1, tokens.2, cost, "success"⟩
    .ok (⟨users2, events2⟩, cost)

/-- Embeds `check_user_balance` (service.py): get-or-create, then test
`balance > minimum`. Returns the answer together with the possibly-extended
users collection. -/
def check_user_balance (users : List User) (uid : String)
    (minimum_tenths_of_cents : ℤ) : Bool × List User :=
  let r := get_or_create users uid
  (decide (minimum_tenths_of_cents < r.1.balance_tenths_of_cents), r.2)

/-- Embeds `log_failed_usage` (service.py): get-or-create the user, then
insert a failed `UsageEvent` with zero tokens and zero cost inside the
`NotUniqueError`-absorbing block. The balance is never touched. -/
def log_failed_usage (db : BillingDb) (user_id model_name request_id : String) :
    BillingDb :=
  let users1 := (get_or_create db.users user_id).2
  ⟨users1, saveUsageEventIdempotent db.events
    ⟨user_id, request_id, model_name, 0, 0, 0, "failed"⟩⟩

/-! ## lib/billing/billing_llm_proxy.py -/

/-- Error taxonomy visible at the `ainvoke` boundary:
`paymentRequired` embeds `PaymentRequiredError` raised by
`perform_pre_request_checks`; `unsupportedModel` embeds the `ValueError`
propagating out of `calculate_cost_tenths_of_cents`; `providerError` embeds
any exception raised by the wrapped external call. -/
inductive InvokeError where
  | paymentRequired : InvokeError
  | unsupportedModel : String → InvokeError
  | providerError : String → InvokeError
  deriving Repr, DecidableEq

/-- Result of the wrapped external provider call: output content plus
optional usage metadata `(input_tokens, output_tokens)`. -/
structure ProviderResult where
  content : String
  usage_metadata : Option (ℕ × ℕ)
  deriving Repr, DecidableEq

/-- Observable outcome of one `BillingLLMProxy.ainvoke` call: the returned
value or raised error, the number of times the wrapped provider was invoked,
and the final database state. -/
structure InvokeOutcome where
  result : Except InvokeError String
  provider_calls : ℕ
  db : BillingDb
  deriving Repr, DecidableEq

/-- Embeds `perform_pre_request_checks` (service.py) for an authenticated
caller: `check_user_balance(user_id, -100)`, raising `PaymentRequiredError`
when the balance is not strictly above the floor. The users collection is
returned alongside because `get_or_create` may have inserted the user. -/
def perform_pre_request_checks (users : List User) (user_id : String) :
    Except InvokeError Unit × List User :=
  let r := check_user_balance users user_id (-100)
  (if r.1 then .ok () else .error .paymentRequired, r.2)

/-- Embeds `BillingLLMProxy.ainvoke` (billing_llm_proxy.py). The wrapped
provider call is embedded as its outcome `provider` (success with content and
metadata, or a raised exception). Source control flow:
`perform_pre_request_checks` raises before the provider is touched; then the
provider call inside `try`; on success `process_billing`; on any exception
inside the `try` block, `log_failed_usage` then re-raise. The per-call
`request_id` is a fresh uuid in the source, passed in here. -/
def ainvoke (db : BillingDb) (user_id model_name : String)
    (input_content request_id : String)
    (provider : Except String ProviderResult) : InvokeOutcome :=
  let pre := perform_pre_request_checks db.users user_id
  match pre.1 with
  | .error e => ⟨.error e, 0, ⟨pre.2, db.events⟩⟩
  | .ok () =>
    let db0 : BillingDb := ⟨pre.2, db.events⟩
    match provider with
    | .error e =>
      ⟨.error (.providerError e), 1, log_failed_usage db0 user_id model_name request_id⟩
    | .ok r =>
      match process_billing db0 user_id model_name input_content r.content
          r.usage_metadata request_id with
      | .ok (db1, _cost) => ⟨.ok r.content, 1, db1⟩
      | .error e =>
        ⟨.error (.unsupportedModel e), 1, log_failed_usage db0 user_id model_name request_id⟩

/-! ## models/payment.py -/

/-- Embeds the `Payment` document (payment.py). `id` is the `PAY_` uuid
primary key; the embedding derives it deterministically from the unique
`stripe_intent_id` at creation, which preserves exactly the identities the
source relies on (a fresh id per created document, equal ids only for the
same document). `user_internal_id` is identified with `user_id` as before;
timestamps are dropped. -/
structure Payment where
  id : String
  stripe_intent_id : String
  stripe_event_id : String
  user_id : String
  amount_cents : ℤ
  status : String
  requested_amount_tenths_of_cents : Option ℤ
  credited_tenths_of_cents : Option ℤ
  processed : Bool
  deriving Repr, DecidableEq

/-- State shared by the payment paths: the `payments` and `users` collections. -/
structure PayDb where
  payments : List Payment
  users : List User
  deriving Repr, DecidableEq

/-- Embeds `cents_to_tenths_of_cents` (amount_validation.py). -/
def cents_to_tenths_of_cents (amount_cents : ℤ) : ℤ :=
  amount_cents * 10

/-- Embeds `Payment.upsert_from_intent` (payment.py). Source control flow:
look up by `stripe_intent_id`; if found, overwrite the status, overwrite
`credited_tenths_of_cents` only when the argument is not `None`, and save the
document (keyed by its primary key). Otherwise look up by `stripe_event_id`
and return that document unchanged when found. Otherwise insert a new
document, whose `processed` field defaults to `False`. -/
def upsert_from_intent (db : PayDb)
    (stripe_intent_id stripe_event_id user_id : String)
    (amount_cents : ℤ) (status : String)
    (requested credited : Option ℤ) : Payment × PayDb :=
  match db.payments.find? (fun p => p.stripe_intent_id == stripe_intent_id) with
  | some p =>
    let p' : Payment :=
      { p with
        status := status
        credited_tenths_of_cents :=
          match credited with
          | some c => some c
          | none => p.credited_tenths_of_cents }
    (p', ⟨db.payments.map (fun q => if q.id == p.id then p' else q), db.users⟩)
  | none =>
    match db.payments.find? (fun p => p.stripe_event_id == stripe_event_id) with
    | some existing => (existing, db)
    | none =>
      let p : Payment :=
        ⟨"PAY_" ++ stripe_intent_id, stripe_intent_id, stripe_event_id,
          user_id, amount_cents, status, requested, credited, false⟩
      (p, ⟨db.payments ++ [p], db.users⟩)

/-- The filter of the atomic conditional update in
`Payment.credit_if_not_processed`: `stripe_intent_id=X`, `status=succeeded`,
`processed=False`. -/
def claimFilter (stripe_intent_id : String) (p : Payment) : Bool :=
  p.stripe_intent_id == stripe_intent_id && p.status == "succeeded" && !p.processed

/-- Embeds `Payment.credit_if_not_processed` (payment.py): one atomic
conditional update setting `processed`, `processed_at` and
`credited_tenths_of_cents` on every document matching `claimFilter`; if the
update touched at least one row, credit the user balance (through the
spec-modelled `async_add_balance`) and return `True`, otherwise return
`False`. -/
def credit_if_not_processed (db : PayDb) (stripe_intent_id user_id : String)
    (credited_tenths_of_cents : ℤ) : Bool × PayDb :=
  let updated_count := (db.payments.filter (claimFilter stripe_intent_id)).length
  let payments' := db.payments.map (fun p =>
    if claimFilter stripe_intent_id p then
      { p with processed := true,
               credited_tenths_of_cents := some credited_tenths_of_cents }
    else p)
  if updated_count ≠ 0 then
    (true, ⟨payments', async_add_balance db.users user_id credited_tenths_of_cents⟩)
  else
    (false, ⟨payments', db.users⟩)

/-! ## lib/billing/webhook_handlers.py -/

/-- Embeds `handle_payment_succeeded` (webhook_handlers.py). The Stripe
intent object is embedded by its fields used in the handler: `intent["id"]`,
`intent["amount_received"]`, `metadata.user_id` (absent embeds as `none`) and
the already-parsed `requested_amount_tenths_of_cents` metadata (the
`int(...)`-with-`ValueError`-fallback parse yields an `Option ℤ`). Source
control flow: bail out when `user_id` is missing; get-or-create the user;
`upsert_from_intent` with status `succeeded`; then, when the stored
`credited_tenths_of_cents` equals the freshly computed credit, look up the
succeeded payment by intent id and skip only when a different document is
found; otherwise credit the balance via the spec-modelled
`async_add_balance`. The `processed` flag is never consulted or written. -/
def handle_payment_succeeded (db : PayDb) (intent_id : String)
    (amount_received : ℤ) (meta_user_id : Option String)
    (meta_requested : Option ℤ) (event_id : String) : PayDb :=
  match meta_user_id with
  | none => db
  | some user_id =>
    let credited_tenths := cents_to_tenths_of_cents amount_received
    let users0 := (get_or_create db.users user_id).2
    let db0 : PayDb := ⟨db.payments, users0⟩
    let r := upsert_from_intent db0 intent_id event_id user_id amount_received
      "succeeded" meta_requested (some credited_tenths)
    let payment := r.1
    let db1 := r.2
    if payment.credited_tenths_of_cents == some credited_tenths then
      match db1.payments.find? (fun p =>
          p.stripe_intent_id == intent_id && p.status == "succeeded") with
      | some existing =>
        if existing.id ≠ payment.id then db1
        else ⟨db1.payments, async_add_balance db1.users user_id credited_tenths⟩
      | none => ⟨db1.payments, async_add_balance db1.users user_id credited_tenths⟩
    else db1

/-! ## orchestrator/states.py -/

/-- Embeds the `source` literal of `SageSpec` (states.py). -/
inductive SageSource where
  | predefined : SageSource
  | dynamic : SageSource
  deriving Repr, DecidableEq

/-- Embeds `SageSpec` (states.py). -/
structure SageSpec where
  source : SageSource
  key : Option String
  name : String
  description : String
  deriving Repr, DecidableEq

/-- Embeds `SageResponse` (types.py). -/
structure SageResponse where
  answer : String
  summary : String
  deriving Repr, DecidableEq

/-! ## orchestrator/graph_definition.py and orchestrator/moderator.py -/

/-- Modelled from the spec: the single default fallback task of §4.5, a
generalist. The repository ships a fallback-only `generalist_sage`
(sages_loader.py excludes it from the selectable list), but the resolver
method that constructs the fallback spec is not under `src/`. -/
def generalist_fallback_spec : SageSpec :=
  ⟨.predefined, some "generalist_sage", "Generalist",
    "General-purpose advisor used when sage selection fails"⟩

/-- Modelled from the spec: `ResponseModerator.select_sages` is awaited by
`sage_selection_node` (graph_definition.py) but is not defined under `src/`.
Following §4.5, the external decision call is embedded by its outcome
(a parsed spec list, or a raised failure/timeout); on failure or on an empty
parse the resolver returns exactly the one generalist fallback spec. -/
def select_sages (decision : Except String (List SageSpec)) : List SageSpec :=
  match decision with
  | .error _ => [generalist_fallback_spec]
  | .ok [] => [generalist_fallback_spec]
  | .ok specs => specs

/-- Embeds `sage_selection_node` (graph_definition.py): runs the resolver and
returns the `sages_to_run` list together with the `sage_count` it stores
under `moderator_responses.sage_selection`. -/
def sage_selection_node (decision : Except String (List SageSpec)) :
    List SageSpec × ℕ :=
  let sage_specs := select_sages decision
  (sage_specs, sage_specs.length)

/-- Embeds `limit_sages_to_run` (graph_definition.py): truncate to
`max_sages_to_run` (state default 5) when that bound is a positive integer,
otherwise pass the list through. -/
def limit_sages_to_run (sages_to_run : List SageSpec)
    (max_sages_to_run : ℤ) : List SageSpec :=
  if 0 < max_sages_to_run then sages_to_run.take max_sages_to_run.toNat
  else sages_to_run

/-- Embeds one Python dict assignment `d[k] = v` on an insertion-ordered
dict represented as an association list: overwrite in place when the key
exists, append otherwise. -/
def dictInsert (m : List (String × SageResponse)) (k : String)
    (v : SageResponse) : List (String × SageResponse) :=
  if m.any (fun kv => kv.1 == k) then
    m.map (fun kv => if kv.1 == k then (k, v) else kv)
  else m ++ [(k, v)]

/-- Embeds the per-task outcome processing of `parallel_sages_node`: the
`asyncio.gather(..., return_exceptions=True)` result for one sage is either
its `SageResponse` or a captured exception, converted to the synthetic error
response. `execute_sage_spec` itself (imported from
tools/philosophical_sage.py) is not defined under `src/`, so each task
execution is embedded by its outcome. -/
def sage_result (exec : SageSpec → Except String SageResponse)
    (s : SageSpec) : SageResponse :=
  match exec s with
  | .ok r => r
  | .error e => ⟨"Error: " ++ e, "Error invoking sage."⟩

/-- Embeds the happy path of `parallel_sages_node` (graph_definition.py):
limit the task list, run every task, and build the `sage_responses` dict
keyed by `sage_spec.name` in task order. (The surrounding
`try ... except` only triggers when batch construction itself fails, which
cannot happen in this embedding; its reserved-key error entry is therefore
not modelled.) -/
def parallel_sages_node (sages_to_run : List SageSpec)
    (max_sages_to_run : ℤ)
    (exec : SageSpec → Except String SageResponse) :
    List (String × SageResponse) :=
  let run := limit_sages_to_run sages_to_run max_sages_to_run
  run.foldl (fun acc s => dictInsert acc s.name (sage_result exec s)) []

/-- Embeds `sage_name.upper().replace("_", " ")` from
`consolidate_responses`: since the replaced pattern is the single character
underscore (unaffected by upcasing), the composite acts independently on each
character, which is how it is embedded here. -/
def sectionLabel (sage_name : String) : String :=
  ⟨sage_name.data.map (fun c => if c == '_' then ' ' else c.toUpper)⟩

/-- Embeds the `return_raw_answers=True` branch of
`ResponseModerator.consolidate_responses` (moderator.py), the only branch the
graph can take since the node never overrides the default: drop the reserved
`"error"` key, render each remaining entry as a section labeled with the
upper-cased, underscore-free key, and join the sections with a blank line.
The 20 spaces after the newline reproduce the indentation embedded in the
triple-quoted f-string literal. -/
def consolidate_responses_raw (agent_responses : List (String × String)) :
    String :=
  String.intercalate "\n\n"
    ((agent_responses.filter (fun kv => kv.1 != "error")).map
      (fun kv =>
        "=== " ++ sectionLabel kv.1 ++ " ===\n                    " ++ kv.2))

/-- Embeds the Python call protocol of
`ResponseModerator.consolidate_responses`, which declares three required
positional parameters `user_query`, `agent_queries`, `agent_responses`:
a call supplying fewer positional arguments raises `TypeError` before the
method body runs; a complete call takes the raw-answers branch above on the
third argument. -/
def consolidate_responses_with_arity (positional_args : ℕ)
    (agent_responses : List (String × String)) : Except String String :=
  if positional_args < 3 then
    .error "consolidate_responses() missing 2 required positional arguments"
  else
    .ok (consolidate_responses_raw agent_responses)

/-- Embeds `consolidation_node` (graph_definition.py): the node calls
`moderator.consolidate_responses(state[agent_responses])` with a single
positional argument; the `except Exception` branch converts any raised
error into the `final_response` string `"Error: ..."`. Returns the
`final_response` the node stores. -/
def consolidation_node (agent_responses : List (String × String)) : String :=
  match consolidate_responses_with_arity 1 agent_responses with
  | .ok consolidated_response => consolidated_response
  | .error e => "Error: " ++ e

/-! ## Concrete scenarios used by the evaluation theorems and witnesses -/

/-- Billing database before the duplicated usage-recording scenario:
one user with a 100000 tenths-of-cents balance and no usage events. -/
def usageScenarioDb : BillingDb := ⟨[⟨"u", 100000⟩], []⟩

/-- First `process_billing` call of the duplicated-delivery scenario:
request id `req-1`, provider metadata reporting 1000000 input tokens. -/
def usageScenarioFirst : Except String (BillingDb × ℤ) :=
  process_billing usageScenarioDb "u" "gpt-4o-mini" "prompt" "output"
    (some (1000000, 0)) "req-1"

/-- Second `process_billing` call with the same account and idempotency
token, run on the state the first call produced. -/
def usageScenarioSecond : Except String (BillingDb × ℤ) :=
  match usageScenarioFirst with
  | .ok r => process_billing r.1 "u" "gpt-4o-mini" "prompt" "output"
      (some (1000000, 0)) "req-1"
  | .error e => .error e

/-- Payment database before the duplicated webhook scenario: one user with a
zero balance and no payment records. -/
def paymentScenarioDb : PayDb := ⟨[], [⟨"u", 0⟩]⟩

/-- First delivery of the succeeded intent `pi_1` (500 cents, event
`evt_1`). -/
def paymentScenarioFirst : PayDb :=
  handle_payment_succeeded paymentScenarioDb "pi_1" 500 (some "u") none "evt_1"

/-- Replayed delivery of the same succeeded intent under a fresh event id
`evt_2`, as the external processor may do at any time. -/
def paymentScenarioSecond : PayDb :=
  handle_payment_succeeded paymentScenarioFirst "pi_1" 500 (some "u") none "evt_2"

/-- Three-task set with pairwise distinct names used by the fan-out witness. -/
def fanoutScenarioSages : List SageSpec :=
  [ ⟨.predefined, some "marcus_aurelius", "marcus_aurelius", "Stoic"⟩,
    ⟨.dynamic, none, "systems_thinker", "Systems"⟩,
    ⟨.predefined, some "naval_ravikant", "naval_ravikant", "Leverage"⟩ ]

/-- Task outcomes for the fan-out witness: the second task raises, the other
two succeed. -/
def fanoutScenarioExec (s : SageSpec) : Except String SageResponse :=
  if s.name == "systems_thinker" then .error "boom"
  else .ok ⟨"answer for " ++ s.name, "summary"⟩

/-! ## Helper lemmas -/

theorem map_id_of_eq {α : Type} (l : List α) (f : α → α)
    (h : ∀ a ∈ l, f a = a) : l.map f = l := by
  induction l with
  | nil => rfl
  | cons x xs ih =>
    simp only [List.map_cons]
    rw [h x (by simp), ih (fun a ha => h a (by simp [ha]))]

theorem floor_half_close (q : ℚ) : |((⌊q + 1/2⌋ : ℤ) : ℚ) - q| ≤ 1/2 := by
  rw [abs_le]
  constructor
  · have h := Int.sub_one_lt_floor (q + 1/2)
    push_cast at h ⊢
    linarith
  · have h := Int.floor_le (q + 1/2)
    push_cast at h ⊢
    linarith

theorem roundHalfUp_close (q : ℚ) : |((roundHalfUp q : ℤ) : ℚ) - q| ≤ 1/2 := by
  unfold roundHalfUp
  split
  · exact floor_half_close q
  · have h := floor_half_close (-q)
    push_cast
    rw [show -((⌊-q + 1/2⌋ : ℤ) : ℚ) - q = -(((⌊-q + 1/2⌋ : ℤ) : ℚ) - -q) by ring,
      abs_neg]
    push_cast at h
    exact h

theorem roundHalfUp_int (n : ℤ) : roundHalfUp ((n : ℤ) : ℚ) = n := by
  unfold roundHalfUp
  split
  · rw [Int.floor_int_add]
    norm_num
  · rw [show (-(n : ℚ) + 1/2) = (((-n : ℤ) : ℚ) + 1/2) by push_cast; ring,
      Int.floor_int_add]
    norm_num

theorem calculate_eval (m : String) (pr : ModelPricing) (i o : ℕ)
    (mult : ℚ) (n : ℤ) (hp : get_model_pricing m = Except.ok pr)
    (hn : ((i : ℚ) / 1000000 * pr.input_usd_per_1m +
        (o : ℚ) / 1000000 * pr.output_usd_per_1m) * mult * 1000 = (n : ℚ)) :
    calculate_cost_tenths_of_cents m i o mult = Except.ok n := by
  simp only [calculate_cost_tenths_of_cents, hp]
  rw [hn, roundHalfUp_int]

/-! ## C6 -/

/-- C6 counterexample: for `gpt-4o-mini`, whose configured input rate is
3 USD per 1M tokens (3000 tenths of cents), the metering calculator returns
9000 tenths of cents on one million input tokens, because the default markup
multiplier 3.0 is applied; 9000 is not within one smallest unit of 3000, so
the cost does not equal the configured input rate. -/
theorem C6_cost_counterexample :
    calculate_cost_tenths_of_cents "gpt-4o-mini" 1000000 0 3 = Except.ok 9000 ∧
    ¬ |((9000 : ℚ)) - 3000| ≤ 1 := by
  constructor
  · exact calculate_eval "gpt-4o-mini" ⟨3, 6, "openai"⟩ 1000000 0 3 9000
      (by decide) (by norm_num)
  · rw [abs_le]
    norm_num

/-- C6 (amended): for every model present in the rate table,
`cost(model, 1_000_000, 0)` equals, within one smallest monetary unit of
rounding, the configured per-1M input rate times the fixed markup multiplier
3.0, expressed in tenths of cents; and for any model absent from the table
the calculator fails with the unsupported-model error instead of returning a
value. -/
theorem C6_cost_markup_and_unsupported :
    (∀ m pr, get_model_pricing m = Except.ok pr →
      ∃ c : ℤ, calculate_cost_tenths_of_cents m 1000000 0 3 = Except.ok c ∧
        |(c : ℚ) - 3 * (pr.input_usd_per_1m * 1000)| ≤ 1) ∧
    (∀ m (i o : ℕ) (mult : ℚ) (e : String),
      get_model_pricing m = Except.error e →
      calculate_cost_tenths_of_cents m i o mult = Except.error e) := by
  constructor
  · intro m pr hp
    refine ⟨roundHalfUp (((1000000 : ℚ) / 1000000 * pr.input_usd_per_1m +
        (0 : ℚ) / 1000000 * pr.output_usd_per_1m) * 3 * 1000), ?_, ?_⟩
    · simp only [calculate_cost_tenths_of_cents, hp]
      norm_num
    · have harg : ((1000000 : ℚ) / 1000000 * pr.input_usd_per_1m +
          (0 : ℚ) / 1000000 * pr.output_usd_per_1m) * 3 * 1000 =
          3 * (pr.input_usd_per_1m * 1000) := by
        field_simp
        ring
      rw [harg]
      exact le_trans (roundHalfUp_close (3 * (pr.input_usd_per_1m * 1000)))
        (by norm_num)
  · intro m i o mult e he
    simp only [calculate_cost_tenths_of_cents, he]

/-- C6 witness: the amended theorem instantiated at `gpt-4o`
(input rate 5 USD per 1M, cost 15000 within one unit of 3 times 5000) and at
the absent model `model-x`. -/
theorem C6_cost_witness :
    (∃ c : ℤ, calculate_cost_tenths_of_cents "gpt-4o" 1000000 0 3 = Except.ok c ∧
      |(c : ℚ) - 3 * ((5 : ℚ) * 1000)| ≤ 1) ∧
    calculate_cost_tenths_of_cents "model-x" 17 4 3 =
      Except.error ("Model model-x not found in pricing map") :=
  ⟨C6_cost_markup_and_unsupported.1 "gpt-4o" ⟨5, 15, "openai"⟩ (by decide),
    C6_cost_markup_and_unsupported.2 "model-x" 17 4 3 _ (by decide)⟩

/-! ## C10 -/

/-- C10: `get_or_create` gives a previously unseen account id a fresh
account whose balance is exactly 1000 tenths of cents (one dollar), and for
an already-existing account id it returns the stored account and leaves the
collection, in particular the stored balance, unchanged. -/
theorem C10_get_or_create_default_balance (users : List User) (uid : String) :
    (findUser users uid = none →
      get_or_create users uid = (⟨uid, 1000⟩, users ++ [⟨uid, 1000⟩])) ∧
    (∀ u, findUser users uid = some u → get_or_create users uid = (u, users)) := by
  constructor
  · intro h
    simp [get_or_create, h]
  · intro u h
    simp [get_or_create, h]

/-- C10 witness: creation at an unseen id yields balance 1000; a second
lookup of an existing id (here with balance 7) changes nothing. -/
theorem C10_get_or_create_witness :
    (findUser [] "alice" = none ∧
      get_or_create [] "alice" = (⟨"alice", 1000⟩, [⟨"alice", 1000⟩])) ∧
    (findUser [⟨"bob", 7⟩] "bob" = some ⟨"bob", 7⟩ ∧
      get_or_create [⟨"bob", 7⟩] "bob" = (⟨"bob", 7⟩, [⟨"bob", 7⟩])) :=
  ⟨⟨by decide, (C10_get_or_create_default_balance [] "alice").1 (by decide)⟩,
    ⟨by decide, (C10_get_or_create_default_balance [⟨"bob", 7⟩] "bob").2 _ (by decide)⟩⟩

/-! ## C4 -/

/-- C4: whenever the stored balance of the calling account is less than or
equal to the floor of -100 tenths of cents, `ainvoke` fails with
`PaymentRequired`, the wrapped provider call count is zero, and the database
(balances and usage records) is unchanged, whatever outcome the provider
would have had. -/
theorem C4_preflight_blocks_before_provider (db : BillingDb)
    (user_id model_name input_content request_id : String)
    (provider : Except String ProviderResult) (u : User)
    (hu : findUser db.users user_id = some u)
    (hbal : u.balance_tenths_of_cents ≤ -100) :
    ainvoke db user_id model_name input_content request_id provider =
      ⟨Except.error InvokeError.paymentRequired, 0, db⟩ := by
  obtain ⟨users, events⟩ := db
  have hnot : ¬ (-100 : ℤ) < u.balance_tenths_of_cents := not_lt.mpr hbal
  simp [ainvoke, perform_pre_request_checks, check_user_balance, get_or_create,
    hu, hnot]

/-- C4 witness: a balance of -150 (below the -100 floor) makes `ainvoke`
fail with `PaymentRequired` while the provider outcome, although available,
is never consumed: zero provider calls, no debit, no usage record. -/
theorem C4_preflight_witness :
    findUser [⟨"u", -150⟩] "u" = some ⟨"u", -150⟩ ∧
    (⟨"u", -150⟩ : User).balance_tenths_of_cents ≤ -100 ∧
    ainvoke ⟨[⟨"u", -150⟩], []⟩ "u" "gpt-4o-mini" "question" "req-9"
        (Except.ok ⟨"reply", some (10, 10)⟩) =
      ⟨Except.error InvokeError.paymentRequired, 0, ⟨[⟨"u", -150⟩], []⟩⟩ :=
  ⟨by decide, by decide,
    C4_preflight_blocks_before_provider ⟨[⟨"u", -150⟩], []⟩ "u" "gpt-4o-mini"
      "question" "req-9" (Except.ok ⟨"reply", some (10, 10)⟩) ⟨"u", -150⟩
      (by decide) (by decide)⟩

/-! ## C5 -/

/-- C5: when the wrapped provider call raises (and the pre-flight check
passed, with a fresh per-call request id), `ainvoke` re-raises the original
failure to the caller, exactly one usage record with status `failed` and
zero cost is appended, and all balances are unchanged. -/
theorem C5_provider_failure_logs_and_reraises (db : BillingDb)
    (user_id model_name input_content request_id err : String) (u : User)
    (hu : findUser db.users user_id = some u)
    (hbal : -100 < u.balance_tenths_of_cents)
    (hfresh : eventKeyExists db.events user_id request_id = false) :
    ainvoke db user_id model_name input_content request_id (Except.error err) =
      ⟨Except.error (InvokeError.providerError err), 1,
        ⟨db.users, db.events ++ [⟨user_id, request_id, model_name, 0, 0, 0, "failed"⟩]⟩⟩ := by
  obtain ⟨users, events⟩ := db
  simp only at hu hfresh
  simp [ainvoke, perform_pre_request_checks, check_user_balance, get_or_create,
    log_failed_usage, saveUsageEventIdempotent, hu, hbal, hfresh]

/-- C5 witness: a provider timeout on a healthy account (balance 50) is
re-raised while a single failed zero-cost record is written and the balance
stays 50. -/
theorem C5_provider_failure_witness :
    findUser [⟨"u", 50⟩] "u" = some ⟨"u", 50⟩ ∧
    (-100 : ℤ) < (⟨"u", 50⟩ : User).balance_tenths_of_cents ∧
    eventKeyExists [] "u" "req-7" = false ∧
    ainvoke ⟨[⟨"u", 50⟩], []⟩ "u" "gpt-4o-mini" "question" "req-7"
        (Except.error "timeout") =
      ⟨Except.error (InvokeError.providerError "timeout"), 1,
        ⟨[⟨"u", 50⟩], [⟨"u", "req-7", "gpt-4o-mini", 0, 0, 0, "failed"⟩]⟩⟩ :=
  ⟨by decide, by decide, by decide,
    C5_provider_failure_logs_and_reraises ⟨[⟨"u", 50⟩], []⟩ "u" "gpt-4o-mini"
      "question" "req-7" "timeout" ⟨"u", 50⟩ (by decide) (by decide) (by decide)⟩

/-! ## C3 -/

/-- C3 evaluated at the failing input: two `process_billing` calls with the
same account `u` and idempotency token `req-1` (cost 9000 tenths of cents
each). After the duplicate call exactly one usage record is stored and no
error is raised, but the balance has been debited twice: 100000 to 91000 to
82000. The debit at the top of `process_billing` precedes the
idempotency-guarded insert, so the duplicate is billed again. -/
theorem C3_duplicate_usage_double_debit :
    usageScenarioFirst = Except.ok
      (⟨[⟨"u", 91000⟩],
        [⟨"u", "req-1", "gpt-4o-mini", 1000000, 0, 9000, "success"⟩]⟩, 9000) ∧
    usageScenarioSecond = Except.ok
      (⟨[⟨"u", 82000⟩],
        [⟨"u", "req-1", "gpt-4o-mini", 1000000, 0, 9000, "success"⟩]⟩, 9000) := by
  have hc : calculate_cost_tenths_of_cents "gpt-4o-mini" 1000000 0 3 =
      Except.ok 9000 :=
    calculate_eval "gpt-4o-mini" ⟨3, 6, "openai"⟩ 1000000 0 3 9000
      (by decide) (by norm_num)
  have h1 : usageScenarioFirst = Except.ok
      (⟨[⟨"u", 91000⟩],
        [⟨"u", "req-1", "gpt-4o-mini", 1000000, 0, 9000, "success"⟩]⟩, 9000) := by
    simp [usageScenarioFirst, usageScenarioDb, process_billing, hc,
      get_or_create, async_modify_balance, saveUsageEventIdempotent,
      eventKeyExists]
    decide
  refine ⟨h1, ?_⟩
  simp only [usageScenarioSecond, h1]
  simp [process_billing, hc, get_or_create, async_modify_balance,
    saveUsageEventIdempotent, eventKeyExists]
  decide

/-! ## C1 -/

/-- C1 evaluated at the failing input: the succeeded intent `pi_1`
(500 cents, so a 5000 tenths-of-cents credit) is delivered twice, under
event ids `evt_1` and `evt_2`. The handler credits the account on both
deliveries — the balance goes 0, 5000, 10000 — and the `processed` flag of
the stored payment record never transitions to true: the credit is applied
twice and never through the claimed transition. -/
theorem C1_duplicate_webhook_double_credit :
    balanceOf paymentScenarioFirst.users "u" = some 5000 ∧
    balanceOf paymentScenarioSecond.users "u" = some 10000 ∧
    paymentScenarioSecond.payments.map Payment.processed = [false] :=
  ⟨by decide, by decide, by decide⟩

/-! ## C2 helper lemmas -/

theorem findUser_async_add_balance (users : List User) (uid : String) (c : ℤ) :
    findUser (async_add_balance users uid c) uid =
      (findUser users uid).map
        (fun u => ⟨u.user_id, u.balance_tenths_of_cents + c⟩) := by
  induction users with
  | nil => rfl
  | cons v vs ih =>
    by_cases hv : v.user_id = uid
    · have hb : (v.user_id == uid) = true := by simp [hv]
      simp only [findUser, async_add_balance, List.map_cons, List.find?_cons, hb]
      simp [hb]
    · have hb : (v.user_id == uid) = false := by simp [hv]
      simp only [findUser, async_add_balance, List.map_cons, List.find?_cons, hb]
      simpa [findUser, async_add_balance, hb] using ih

theorem claim_update_filter_nil (intent : String) (l : List Payment) (c : ℤ) :
    (l.map (fun p => if claimFilter intent p then
        { p with processed := true, credited_tenths_of_cents := some c }
      else p)).filter (claimFilter intent) = [] := by
  rw [List.filter_eq_nil_iff]
  intro q hq
  rw [List.mem_map] at hq
  obtain ⟨p, hp, rfl⟩ := hq
  cases h : claimFilter intent p with
  | true => simp [h, claimFilter]
  | false => simp [h]

/-! ## C2 -/

/-- C2: semantics of `credit_if_not_processed`. When the atomic conditional
update (`processed=false`, `status=succeeded`, matching intent id) matches
exactly one row, the call returns true and the account balance increases by
exactly the credit amount, and a subsequent call with the same intent id
returns false and changes nothing; when the update matches zero rows, the
call returns false and the state is unchanged. -/
theorem C2_credit_if_not_processed_claims_once (db : PayDb)
    (intent uid : String) (credit : ℤ) (u : User) :
    ((db.payments.filter (claimFilter intent)).length = 1 →
      findUser db.users uid = some u →
      (credit_if_not_processed db intent uid credit).1 = true ∧
      balanceOf (credit_if_not_processed db intent uid credit).2.users uid =
        some (u.balance_tenths_of_cents + credit) ∧
      credit_if_not_processed (credit_if_not_processed db intent uid credit).2
          intent uid credit =
        (false, (credit_if_not_processed db intent uid credit).2)) ∧
    ((db.payments.filter (claimFilter intent)).length = 0 →
      credit_if_not_processed db intent uid credit = (false, db)) := by
  obtain ⟨payments, users⟩ := db
  constructor
  · intro h1 hu
    simp only at h1 hu
    have hne : (payments.filter (claimFilter intent)).length ≠ 0 := by omega
    have hfirst : credit_if_not_processed ⟨payments, users⟩ intent uid credit =
        (true, ⟨payments.map (fun p => if claimFilter intent p then
            { p with processed := true, credited_tenths_of_cents := some credit }
          else p), async_add_balance users uid credit⟩) := by
      simp [credit_if_not_processed, hne]
    refine ⟨by rw [hfirst], ?_, ?_⟩
    · rw [hfirst]
      simp only [balanceOf, findUser_async_add_balance, hu]
      rfl
    · rw [hfirst]
      have hnil := claim_update_filter_nil intent payments credit
      have hid : ((payments.map (fun p => if claimFilter intent p then
            { p with processed := true, credited_tenths_of_cents := some credit }
          else p)).map (fun p => if claimFilter intent p then
            { p with processed := true, credited_tenths_of_cents := some credit }
          else p)) = payments.map (fun p => if claimFilter intent p then
            { p with processed := true, credited_tenths_of_cents := some credit }
          else p) := by
        refine map_id_of_eq _ _ (fun p hp => ?_)
        have hf := List.filter_eq_nil_iff.mp hnil p hp
        simp [hf]
      simp [credit_if_not_processed, hnil, hid]
  · intro h0
    have hnil : payments.filter (claimFilter intent) = [] :=
      List.length_eq_zero.mp h0
    have hid : payments.map (fun p => if claimFilter intent p then
          { p with processed := true, credited_tenths_of_cents := some credit }
        else p) = payments := by
      refine map_id_of_eq _ _ (fun p hp => ?_)
      have hf := List.filter_eq_nil_iff.mp hnil p hp
      simp [hf]
    simp [credit_if_not_processed, h0, hid]

/-- C2 witness: a database holding one unprocessed succeeded payment for
intent `pi`. The first call returns true and raises the balance from 20 to
5020; the second call with the same intent id returns false and changes
nothing; a database with no matching row returns false unchanged. -/
theorem C2_credit_if_not_processed_witness :
    (([⟨"PAY_pi", "pi", "evt", "u", 500, "succeeded", none, none, false⟩].filter
        (claimFilter "pi")).length = 1 ∧
      findUser [⟨"u", 20⟩] "u" = some ⟨"u", 20⟩) ∧
    ((credit_if_not_processed
        ⟨[⟨"PAY_pi", "pi", "evt", "u", 500, "succeeded", none, none, false⟩],
          [⟨"u", 20⟩]⟩ "pi" "u" 5000).1 = true ∧
      balanceOf (credit_if_not_processed
        ⟨[⟨"PAY_pi", "pi", "evt", "u", 500, "succeeded", none, none, false⟩],
          [⟨"u", 20⟩]⟩ "pi" "u" 5000).2.users "u" = some (20 + 5000) ∧
      credit_if_not_processed (credit_if_not_processed
        ⟨[⟨"PAY_pi", "pi", "evt", "u", 500, "succeeded", none, none, false⟩],
          [⟨"u", 20⟩]⟩ "pi" "u" 5000).2 "pi" "u" 5000 =
        (false, (credit_if_not_processed
        ⟨[⟨"PAY_pi", "pi", "evt", "u", 500, "succeeded", none, none, false⟩],
          [⟨"u", 20⟩]⟩ "pi" "u" 5000).2)) :=
  ⟨⟨by decide, by decide⟩,
    (C2_credit_if_not_processed_claims_once
      ⟨[⟨"PAY_pi", "pi", "evt", "u", 500, "succeeded", none, none, false⟩],
        [⟨"u", 20⟩]⟩ "pi" "u" 5000 ⟨"u", 20⟩).1 (by decide) (by decide)⟩

/-! ## C7 -/

/-- C7: whatever the decision outcome, the selection node never produces an
empty task list and never raises; and when the external decision call fails
(raises or times out) or yields zero specs, it returns exactly the one
generalist fallback spec. -/
theorem C7_resolver_fallback (decision : Except String (List SageSpec)) :
    ((∃ e, decision = Except.error e) ∨ decision = Except.ok [] →
      sage_selection_node decision = ([generalist_fallback_spec], 1)) ∧
    (sage_selection_node decision).1 ≠ [] := by
  constructor
  · rintro (⟨e, rfl⟩ | rfl) <;> simp [sage_selection_node, select_sages]
  · cases decision with
    | error e => simp [sage_selection_node, select_sages]
    | ok l => cases l <;> simp [sage_selection_node, select_sages]

/-- C7 witness: a decision provider forced to error yields exactly one
fallback spec, the generalist, and a non-empty task list. -/
theorem C7_resolver_fallback_witness :
    ((∃ e, (Except.error "decision provider failure" :
        Except String (List SageSpec)) = Except.error e) ∨
      (Except.error "decision provider failure" :
        Except String (List SageSpec)) = Except.ok []) ∧
    sage_selection_node (Except.error "decision provider failure") =
      ([generalist_fallback_spec], 1) ∧
    (sage_selection_node (Except.error "decision provider failure")).1 ≠ [] :=
  ⟨Or.inl ⟨_, rfl⟩,
    (C7_resolver_fallback (Except.error "decision provider failure")).1
      (Or.inl ⟨_, rfl⟩),
    (C7_resolver_fallback (Except.error "decision provider failure")).2⟩

/-! ## C8 helper lemma -/

theorem foldl_dictInsert_fresh (f : SageSpec → SageResponse) :
    ∀ (l : List SageSpec) (acc : List (String × SageResponse)),
      (l.map SageSpec.name).Nodup →
      (∀ s ∈ l, acc.any (fun kv => kv.1 == s.name) = false) →
      l.foldl (fun acc s => dictInsert acc s.name (f s)) acc =
        acc ++ l.map (fun s => (s.name, f s))
  | [], acc, _, _ => by simp
  | s :: t, acc, hnodup, hfresh => by
    simp only [List.foldl_cons, List.map_cons]
    have hs : acc.any (fun kv => kv.1 == s.name) = false := hfresh s (by simp)
    have hins : dictInsert acc s.name (f s) = acc ++ [(s.name, f s)] := by
      simp [dictInsert, hs]
    rw [hins]
    obtain ⟨hnotmem, hnd⟩ := List.nodup_cons.mp
      (show (s.name :: t.map SageSpec.name).Nodup from hnodup)
    have hfresh' : ∀ x ∈ t,
        ((acc ++ [(s.name, f s)]).any (fun kv => kv.1 == x.name)) = false := by
      intro x hx
      rw [List.any_append]
      have h1 := hfresh x (by simp [hx])
      have h2 : s.name ≠ x.name :=
        fun h => hnotmem (h ▸ List.mem_map_of_mem SageSpec.name hx)
      simp [h1, h2]
    rw [foldl_dictInsert_fresh f t (acc ++ [(s.name, f s)]) hnd hfresh']
    simp

/-! ## C8 -/

/-- C8: for a task set whose names are pairwise distinct and whose size is
within the fan-out bound (so the truncation step passes it through), the
fan-out node returns exactly one entry per task, keyed by the task name in
task order: every raising task maps to the synthetic error result carrying
the error text as answer and the short error note as summary, and every
succeeding task maps to its real result; no failure aborts the batch. -/
theorem C8_fanout_isolates_failures (sages : List SageSpec) (maxS : ℤ)
    (exec : SageSpec → Except String SageResponse)
    (hlim : limit_sages_to_run sages maxS = sages)
    (hnodup : (sages.map SageSpec.name).Nodup) :
    parallel_sages_node sages maxS exec =
      sages.map (fun s => (s.name, sage_result exec s)) ∧
    (parallel_sages_node sages maxS exec).length = sages.length ∧
    (parallel_sages_node sages maxS exec).map Prod.fst =
      sages.map SageSpec.name ∧
    ∀ s ∈ sages,
      (∀ e, exec s = Except.error e →
        (s.name, (⟨"Error: " ++ e, "Error invoking sage."⟩ : SageResponse)) ∈
          parallel_sages_node sages maxS exec) ∧
      (∀ r, exec s = Except.ok r →
        (s.name, r) ∈ parallel_sages_node sages maxS exec) := by
  have hmain : parallel_sages_node sages maxS exec =
      sages.map (fun s => (s.name, sage_result exec s)) := by
    unfold parallel_sages_node
    rw [hlim]
    simpa using foldl_dictInsert_fresh (sage_result exec) sages [] hnodup
      (by simp)
  refine ⟨hmain, ?_, ?_, ?_⟩
  · rw [hmain]
    simp
  · rw [hmain]
    simp
  · intro s hs
    constructor
    · intro e he
      rw [hmain]
      have hv : (fun s => (s.name, sage_result exec s)) s =
          (s.name, (⟨"Error: " ++ e, "Error invoking sage."⟩ : SageResponse)) := by
        simp [sage_result, he]
      exact hv ▸ List.mem_map_of_mem _ hs
    · intro r hr
      rw [hmain]
      have hv : (fun s => (s.name, sage_result exec s)) s = (s.name, r) := by
        simp [sage_result, hr]
      exact hv ▸ List.mem_map_of_mem _ hs

/-- C8 witness: three distinct tasks of which the second raises. The node
returns three entries; the failing task carries the synthetic error result
and a succeeding task carries its real answer. -/
theorem C8_fanout_witness :
    limit_sages_to_run fanoutScenarioSages 5 = fanoutScenarioSages ∧
    (fanoutScenarioSages.map SageSpec.name).Nodup ∧
    (parallel_sages_node fanoutScenarioSages 5 fanoutScenarioExec).length = 3 ∧
    ("systems_thinker", (⟨"Error: boom", "Error invoking sage."⟩ : SageResponse)) ∈
      parallel_sages_node fanoutScenarioSages 5 fanoutScenarioExec ∧
    ("marcus_aurelius",
        (⟨"answer for marcus_aurelius", "summary"⟩ : SageResponse)) ∈
      parallel_sages_node fanoutScenarioSages 5 fanoutScenarioExec :=
  ⟨by decide, by decide,
    (C8_fanout_isolates_failures fanoutScenarioSages 5 fanoutScenarioExec
      (by decide) (by decide)).2.1,
    ((C8_fanout_isolates_failures fanoutScenarioSages 5 fanoutScenarioExec
      (by decide) (by decide)).2.2.2 ⟨.dynamic, none, "systems_thinker", "Systems"⟩
      (by decide)).1 "boom" (by decide),
    ((C8_fanout_isolates_failures fanoutScenarioSages 5 fanoutScenarioExec
      (by decide) (by decide)).2.2.2
      ⟨.predefined, some "marcus_aurelius", "marcus_aurelius", "Stoic"⟩
      (by decide)).2 ⟨"answer for marcus_aurelius", "summary"⟩ (by decide)⟩

/-! ## C9 -/

/-- C9 evaluated at the failing input: the consolidation node, handed a
result map with one real entry and one reserved error entry, produces the
caught-TypeError final response instead of the labeled concatenation,
because its call supplies one positional argument to a method requiring
three; the second conjunct shows what the raw consolidation branch itself
produces on the same map — the labeled section of the non-error entry —
which the node never reaches. -/
theorem C9_consolidation_node_eval :
    consolidation_node [("marcus_aurelius", "Be calm."), ("error", "boom")] =
      "Error: consolidate_responses() missing 2 required positional arguments" ∧
    consolidate_responses_raw [("marcus_aurelius", "Be calm."), ("error", "boom")] =
      "=== MARCUS AURELIUS ===\n                    Be calm." :=
  ⟨by decide, by decide⟩

end CouncilOfSages
